import Mathlib

/-!
# Verification of `shdl2ethsnarks.py`

A shallow embedding of the SHDL-to-EthSnarks converter
(`src/shdl2ethsnarks.py`): the two regular expressions `RE_VAR_LINE` and
`RE_GATE_LINE` are embedded as deterministic character-list matchers
(shown branch-by-branch to follow the Python `re` semantics of the two
concrete patterns), and `Variable.from_line`, `Gate.from_line`,
`parse_gates`, `parse_variables` and `main` are translated directly.

Python failure behaviour is made explicit:
* `Gate.from_line` prints a diagnostic and returns `None`; the embedding
  returns `Except GateErr Gate`, one error constructor per distinct
  diagnostic path in the source.
* `Variable.from_line` calls `m.group(...)` on the result of `re.match`
  without checking it, so a non-matching line raises `AttributeError`
  (`NoneType` has no attribute `group`), an exception carrying neither
  the line number nor the line text; the embedding returns
  `Except VarFailure Variable` with the single constructor
  `VarFailure.attributeError`.
* `parse_gates` returns the sentinel `2` for a line failure and `3` for a
  duplicate wire (printing line number and wire); the embedding returns
  `Except ParseGatesErr _`, keeping the printed payload in the error.

The passthru resolver is described in the module docstring of the source
and in the specification (§4.5) but is not implemented in the source
file; the definitions in the `resolver` section below are modelled from
the spec, as marked in their doc comments.
-/

namespace SHDL

/-- Python `\s` for the ASCII range: space, tab, newline, carriage
return, vertical tab, form feed.  (`str.strip` / `str.split` use the
same class; the circuit files are ASCII.) -/
def isPyWs (c : Char) : Bool :=
  c = ' ' || c = '\t' || c = '\n' || c = '\r' || c = '\x0b' || c = '\x0c'

/-- The regex class `[0-9]`. -/
def isDigitC (c : Char) : Bool :=
  '0' ≤ c && c ≤ '9'

/-- The regex class `[01]`. -/
def isBit (c : Char) : Bool :=
  c = '0' || c = '1'

/-- Python `str.strip()` on a character list. -/
def trimPy (s : List Char) : List Char :=
  ((s.dropWhile isPyWs).reverse.dropWhile isPyWs).reverse

/-- Python `int(...)` on a string of decimal digits. -/
def charsToNat (s : List Char) : Nat :=
  s.foldl (fun acc c => 10 * acc + (c.toNat - '0'.toNat)) 0

/-- Worker for `splitWs` (fuel = length of the list). -/
def splitWsGo (fuel : Nat) (s : List Char) : List (List Char) :=
  match fuel with
  | 0 => []
  | f + 1 =>
    let s1 := s.dropWhile isPyWs
    match s1 with
    | [] => []
    | _ :: _ =>
      (s1.takeWhile (fun c => !isPyWs c)) ::
        splitWsGo f (s1.dropWhile (fun c => !isPyWs c))

/-- Python `str.split()` with no argument: maximal runs of
non-whitespace characters. -/
def splitWs (s : List Char) : List (List Char) :=
  splitWsGo s.length s

/-- Match a literal prefix (a fixed fragment of a regex pattern),
returning the remaining input on success. -/
def dropPrefixQ : List Char → List Char → Option (List Char)
  | [], s => some s
  | _ :: _, [] => none
  | c :: p, x :: s => if x = c then dropPrefixQ p s else none

/-- A two-way regex alternation of literal tokens (such as
`(Alice|Bob)`): try the first, then the second; the two tokens used
never share a first character, so this is exactly the regex behaviour.
Returns the captured token and the rest. -/
def tok2 (p1 p2 s : List Char) : Option (List Char × List Char) :=
  match dropPrefixQ p1 s with
  | some r => some (p1, r)
  | none =>
    match dropPrefixQ p2 s with
    | some r => some (p2, r)
    | none => none

/-! ## Variable lines

Source: `RE_VAR_LINE`, the `_VariableStruct` named tuple, class
`Variable` with `Variable.from_line`, and `parse_variables`.

```
RE_VAR_LINE = re.compile(r'(?P<party>Alice|Bob) (input|output)
    (?P<type>integer) "(?P<name>[^"]+)" \[\s*(?P<inputs>([0-9]+\s)+)\]')
```

`re.match` anchors at the start only, so trailing text after the final
`]` is accepted.  The second group `(input|output)` is captured (group
2) but never read by `Variable.from_line`. -/

/-- The groups of a successful `RE_VAR_LINE` match, as raw character
lists.  `dir` is the unnamed second group `(input|output)`. -/
structure VarMatch where
  party : List Char
  dir : List Char
  type : List Char
  name : List Char
  inputs : List Char
deriving Repr, DecidableEq

/-- The repetition `([0-9]+\s)+` of `RE_VAR_LINE`, whose surrounding
named group captures the whole repetition: returns all consumed
characters and the rest.  An empty capture means the repetition failed
(it requires at least one element).  Fuel is the input length. -/
def varReps (fuel : Nat) (s : List Char) : List Char × List Char :=
  match fuel with
  | 0 => ([], s)
  | f + 1 =>
    let d := s.takeWhile isDigitC
    let r1 := s.dropWhile isDigitC
    if d.isEmpty then ([], s)
    else
      match r1 with
      | w :: r2 =>
        if isPyWs w then
          let (cap, r) := varReps f r2
          (d ++ w :: cap, r)
        else ([], s)
      | [] => ([], s)

/-- Embedding of `RE_VAR_LINE.match(line)` (anchored at the start of
the line only, as `re.match` is).  Alternations and greedy pieces of
the pattern are deterministic here: `Alice`/`Bob` and `input`/`output`
have distinct first characters, `[^"]+` stops exactly at the next
quote, and the `\s*` before the wire list can never donate a character
to `([0-9]+\s)+`, which must start with a digit. -/
def matchVarLine (s : List Char) : Option VarMatch :=
  match tok2 ("Alice".data) ("Bob".data) s with
  | none => none
  | some (party, s1) =>
    match dropPrefixQ [' '] s1 with
    | none => none
    | some s2 =>
      match tok2 ("input".data) ("output".data) s2 with
      | none => none
      | some (dir, s3) =>
        match dropPrefixQ (" integer \"".data) s3 with
        | none => none
        | some s4 =>
          let name := s4.takeWhile (fun c => c ≠ '"')
          let rest := s4.dropWhile (fun c => c ≠ '"')
          if name.isEmpty then none
          else
            match rest with
            | '"' :: s5 =>
              match dropPrefixQ (" [".data) s5 with
              | none => none
              | some s6 =>
                let s7 := s6.dropWhile isPyWs
                let (cap, s8) := varReps s7.length s7
                if cap.isEmpty then none
                else
                  match s8 with
                  | ']' :: _ => some ⟨party, dir, "integer".data, name, cap⟩
                  | _ => none
            | _ => none

/-- Python raising `AttributeError`: `Variable.from_line` does
`m = RE_VAR_LINE.match(line)` and immediately calls `m.group(...)`;
when the match fails `m` is `None` and `'NoneType' object has no
attribute 'group'` is raised.  That exception carries neither the line
number nor the line text. -/
inductive VarFailure where
  | attributeError
deriving Repr, DecidableEq

/-- The `_VariableStruct` named tuple: fields `party`, `type`, `name`,
`wires` (the source has no direction field). -/
structure Variable where
  party : String
  type : String
  name : String
  wires : List Nat
deriving Repr, DecidableEq

/-- The tuple built by `Variable.from_line` from the match groups:
`cls(m.group('party'), m.group('type'), m.group('name'),
[int(_) for _ in m.group('inputs').strip().split()])`.  The unnamed
direction group is not read. -/
def Variable.ofMatch (m : VarMatch) : Variable :=
  ⟨String.mk m.party, String.mk m.type, String.mk m.name,
    (splitWs m.inputs).map charsToNat⟩

/-- `Variable.from_line(line, lineno)` (the `lineno` parameter is
unused by the source method, which is why a failure cannot mention
it). -/
def Variable.from_line (line : String) (lineno : Nat) :
    Except VarFailure Variable :=
  match matchVarLine line.data with
  | none => .error .attributeError
  | some m => .ok (Variable.ofMatch m)

example : Variable.from_line "Alice input integer \"x\" [ 1 2 ]" 0 =
    .ok ⟨"Alice", "integer", "x", [1, 2]⟩ := rfl

example : Variable.from_line "Alice input boolean \"x\" [ 1 ]" 0 =
    .error .attributeError := rfl

/-! ## Gate lines

Source: `RE_GATE_LINE`, the `_GateStruct` named tuple, class `Gate`
with the three classifier methods and `Gate.from_line`, and
`parse_gates`.

```
RE_GATE_LINE = re.compile(r'^(?P<wire>[0-9]+) ((?P<is_output>output )?
    gate arity (?P<arity>[0-9]+) table \[\s(?P<table>([01]\s?)+)\]
    inputs \[\s(?P<inputs>[0-9]+\s)+\]|(?P<is_input>input))
    (?P<comment>\s*//.*)?$')
```

Two load-bearing details of this pattern:
* the `table` group wraps its repetition, so it captures every bit,
  but the `inputs` group sits inside `( ... )+`, so, as in Python,
  it captures only the **last** repetition (the last input wire);
* both bracketed lists require at least one element
  (`([01]\s?)+`, `([0-9]+\s)+`), so `inputs [ ]` never matches. -/

/-- The groups of a successful `RE_GATE_LINE` match, as raw character
lists (`none` = the group did not participate in the match). -/
structure GateMatch where
  wire : List Char
  is_output : Option (List Char)
  arity : Option (List Char)
  table : Option (List Char)
  inputs : Option (List Char)
  is_input : Option (List Char)
  comment : Option (List Char)
deriving Repr, DecidableEq

/-- The repetition `([01]\s?)+` of the `table` group: greedily take a
bit and then at most one whitespace character, repeating while the next
character is a bit; returns the consumed characters (the group capture)
and the rest.  An empty capture means failure.  Greediness without
backtracking agrees with the regex because the following piece of the
pattern is the literal `]`, which no `\s?` choice can produce.  Fuel is
the input length. -/
def bitReps (fuel : Nat) (s : List Char) : List Char × List Char :=
  match fuel with
  | 0 => ([], s)
  | f + 1 =>
    match s with
    | [] => ([], [])
    | c :: rest =>
      if isBit c then
        match rest with
        | [] => ([c], [])
        | w :: rest2 =>
          if isPyWs w then
            let (cap, r) := bitReps f rest2
            (c :: w :: cap, r)
          else
            let (cap, r) := bitReps f rest
            (c :: cap, r)
      else ([], s)

/-- The repetition `([0-9]+\s)+` around the `inputs` group: each
element is one or more digits followed by exactly one whitespace
character.  Returns the capture of the **last** element (Python group
semantics for a group inside a repetition) and the rest; `none` means
the repetition failed.  Fuel is the input length. -/
def inputReps (fuel : Nat) (s : List Char) : Option (List Char) × List Char :=
  match fuel with
  | 0 => (none, s)
  | f + 1 =>
    let d := s.takeWhile isDigitC
    let r1 := s.dropWhile isDigitC
    if d.isEmpty then (none, s)
    else
      match r1 with
      | w :: r2 =>
        if isPyWs w then
          match inputReps f r2 with
          | (some cap, r) => (some cap, r)
          | (none, _) => (some (d ++ [w]), r2)
        else (none, s)
      | [] => (none, s)

/-- The tail `(?P<comment>\s*//.*)?$` of `RE_GATE_LINE`, applied to
what remains after the gate or input body: either nothing remains (no
comment, `some none`), or the remainder is whitespace followed by `//`
(the whole remainder is the comment capture), or the line does not
match (`none`).  `.*` runs to the end of the line (lines are split on
newlines before matching, so the remainder contains none). -/
def commentEnd (s : List Char) : Option (Option (List Char)) :=
  match s with
  | [] => some none
  | _ :: _ =>
    match s.dropWhile isPyWs with
    | '/' :: '/' :: _ => some (some s)
    | _ => none

/-- The body of the first branch of the `RE_GATE_LINE` alternation
after the optional `output `:
`gate arity (?P<arity>[0-9]+) table \[\s(?P<table>([01]\s?)+)\]
inputs \[\s(?P<inputs>[0-9]+\s)+\]` followed by the comment tail.
The optional `(?P<is_output>output )?` preceding it is deterministic:
when the text starts with `output ` the branch can only match by
consuming it, since `gate ...` never starts with `output `. -/
def gateBranchCore (wire : List Char) (isOut : Option (List Char))
    (s1 : List Char) : Option GateMatch :=
  match dropPrefixQ ("gate arity ".data) s1 with
  | none => none
  | some s2 =>
    let ar := s2.takeWhile isDigitC
    let s3 := s2.dropWhile isDigitC
    if ar.isEmpty then none
    else
      match dropPrefixQ (" table [".data) s3 with
      | none => none
      | some s4 =>
        match s4 with
        | [] => none
        | w :: s5 =>
          if isPyWs w then
            let tb := bitReps s5.length s5
            if tb.1.isEmpty then none
            else
              match dropPrefixQ ("] inputs [".data) tb.2 with
              | none => none
              | some s7 =>
                match s7 with
                | [] => none
                | w2 :: s8 =>
                  if isPyWs w2 then
                    match inputReps s8.length s8 with
                    | (none, _) => none
                    | (some cap, s9) =>
                      match s9 with
                      | ']' :: s10 =>
                        match commentEnd s10 with
                        | none => none
                        | some c =>
                          some ⟨wire, isOut, some ar, some tb.1, some cap, none, c⟩
                      | _ => none
                  else none
          else none

/-- The first branch of the `RE_GATE_LINE` alternation, with the
optional `output ` handled up front (see `gateBranchCore` for why this
is the regex behaviour). -/
def gateBranch (wire s0 : List Char) : Option GateMatch :=
  match dropPrefixQ ("output ".data) s0 with
  | some r => gateBranchCore wire (some ("output ".data)) r
  | none => gateBranchCore wire none s0

/-- The second branch of the alternation: `(?P<is_input>input)`
followed by the comment tail, starting after `<wire> `. -/
def inputBranch (wire s : List Char) : Option GateMatch :=
  match dropPrefixQ ("input".data) s with
  | none => none
  | some s1 =>
    match commentEnd s1 with
    | none => none
    | some c => some ⟨wire, none, none, none, none, some ("input".data), c⟩

/-- Embedding of `RE_GATE_LINE.match(line)`: the wire number, a single
space, then the gate branch or (as in the regex alternation order,
second) the input branch. -/
def matchGateLine (s : List Char) : Option GateMatch :=
  let w := s.takeWhile isDigitC
  let r := s.dropWhile isDigitC
  if w.isEmpty then none
  else
    match r with
    | ' ' :: r2 =>
      match gateBranch w r2 with
      | some m => some m
      | none => inputBranch w r2
    | _ => none

/-- The distinct failure paths of `Gate.from_line`, one constructor per
diagnostic the source prints before `return None`, with the data the
diagnostic prints:
* `malformedLine`: `RE_GATE_LINE` did not match (prints lineno, line);
* `unsupportedArity`: `arity < 0 or arity > 3` (prints lineno, line,
  arity);
* `tableSizeMismatch`: `len(table) != 1 << arity` (prints lineno, line,
  expected and actual table sizes);
* `typeError`: unreachable guard — `len(table)`/`1 << arity` with a
  `None` operand would raise `TypeError` in Python, but the gate branch
  of the regex always supplies both groups. -/
inductive GateErr where
  | malformedLine (lineno : Nat) (line : String)
  | unsupportedArity (lineno : Nat) (arity : Nat)
  | tableSizeMismatch (lineno : Nat) (expected actual : Nat)
  | typeError
deriving Repr, DecidableEq

/-- The `_GateStruct` named tuple.  `arity`, `table`, `inputs` and
`comment` are `None` in Python for an `input` line; `wire` is always
present. -/
structure Gate where
  is_input : Bool
  is_output : Bool
  wire : Nat
  arity : Option Nat
  table : Option (List Nat)
  inputs : Option (List Nat)
  comment : Option String
deriving Repr, DecidableEq

/-- `Gate.is_constant`: `self.arity == 0` (with `arity = None` for an
input gate this is Python `None == 0`, i.e. `False`). -/
def Gate.is_constant (g : Gate) : Bool :=
  g.arity == some 0

/-- `Gate.is_passthru`: `self.arity == 1 and self.table == [0, 1]`. -/
def Gate.is_passthru (g : Gate) : Bool :=
  g.arity == some 1 && g.table == some [0, 1]

/-- `Gate.is_not`: `self.arity == 1 and self.table == [1, 0]`. -/
def Gate.is_not (g : Gate) : Bool :=
  g.arity == some 1 && g.table == some [1, 0]

/-- `comment.strip()[2:]` — the comment capture is `\s*//.*`, so after
stripping it starts with `//`, which `[2:]` removes. -/
def commentText (c : List Char) : String :=
  String.mk ((trimPy c).drop 2)

/-- `Gate.from_line(line, lineno)`: strip the line, match
`RE_GATE_LINE`, convert the groups (`int` for wire/arity, whitespace
split + `int` for table/inputs), check `arity <= 3`, and for non-input
gates check `len(table) == 1 << arity`. -/
def Gate.from_line (line0 : String) (lineno : Nat) : Except GateErr Gate :=
  let line := String.mk (trimPy line0.data)
  match matchGateLine line.data with
  | none => .error (.malformedLine lineno line)
  | some m =>
    let comment := m.comment.map commentText
    let wire := charsToNat m.wire
    let is_input := m.is_input == some ("input".data)
    let table := m.table.map (fun t => (splitWs t).map charsToNat)
    let inputs := m.inputs.map (fun t => (splitWs t).map charsToNat)
    let is_output := m.is_output == some ("output ".data)
    match m.arity.map charsToNat with
    | some a =>
      if a > 3 then .error (.unsupportedArity lineno a)
      else if is_input then
        .ok ⟨is_input, is_output, wire, some a, table, inputs, comment⟩
      else
        match table with
        | some t =>
          if t.length ≠ 1 <<< a then
            .error (.tableSizeMismatch lineno (1 <<< a) t.length)
          else .ok ⟨is_input, is_output, wire, some a, table, inputs, comment⟩
        | none => .error .typeError
    | none =>
      if is_input then
        .ok ⟨is_input, is_output, wire, none, table, inputs, comment⟩
      else .error .typeError

example : Gate.from_line "2 gate arity 1 table [ 1 0 ] inputs [ 1 ]" 2 =
    .ok ⟨false, false, 2, some 1, some [1, 0], some [1], none⟩ := rfl

example : Gate.from_line "0 gate arity 0 table [ 0 ] inputs [ ]" 0 =
    .error (.malformedLine 0 "0 gate arity 0 table [ 0 ] inputs [ ]") := rfl

example : Gate.from_line "511 output gate arity 1 table [ 0 1 ] inputs [ 510 ]\t//output$output.bob$0" 0 =
    .ok ⟨false, true, 511, some 1, some [0, 1], some [510],
      some "output$output.bob$0"⟩ := rfl

example : Gate.from_line "7 input // primary" 3 =
    .ok ⟨true, false, 7, none, none, none, some " primary"⟩ := rfl

example : Gate.from_line "5 gate arity 2 table [ 0 1 ] inputs [ 1 ]" 0 =
    .error (.tableSizeMismatch 0 4 2) := rfl

example : Gate.from_line "5 gate arity 4 table [ 0 1 ] inputs [ 1 ]" 0 =
    .error (.unsupportedArity 0 4) := rfl

example : Gate.from_line "5 gate arity 2 table [ 0 1 1 0 ] inputs [ 3 4 ]" 0 =
    .ok ⟨false, false, 5, some 2, some [0, 1, 1, 0], some [4], none⟩ := rfl

/-! ## Circuit assembly (`parse_gates`), `parse_variables`, `main` -/

/-- Ordered-dictionary lookup on an insertion-ordered association
list. -/
def lookupW {α : Type} : List (Nat × α) → Nat → Option α
  | [], _ => none
  | (k, v) :: rest, w => if k = w then some v else lookupW rest w

/-- The two failure returns of `parse_gates`:
* `lineError` — `Gate.from_line` returned `None` (after printing); the
  function prints nothing more and returns the sentinel `2`;
* `duplicateWire` — `parsed.wire in wires`; prints the line number and
  the wire and returns the sentinel `3`. -/
inductive ParseGatesErr where
  | lineError (e : GateErr)
  | duplicateWire (lineno : Nat) (wire : Nat)
deriving Repr, DecidableEq

/-- The sentinel integer each failure of `parse_gates` returns. -/
def ParseGatesErr.sentinel : ParseGatesErr → Nat
  | .lineError _ => 2
  | .duplicateWire _ _ => 3

/-- The loop of `parse_gates`: `enumerate` counts every line (blank
ones included), blank lines are skipped after stripping, and the
ordered dictionary `wires` is an insertion-ordered association list. -/
def parseGatesGo (lineno : Nat) (wires : List (Nat × Gate)) :
    List String → Except ParseGatesErr (List (Nat × Gate))
  | [] => .ok wires
  | l :: rest =>
    let line := trimPy l.data
    if line.isEmpty then parseGatesGo (lineno + 1) wires rest
    else
      match Gate.from_line (String.mk line) lineno with
      | .error e => .error (.lineError e)
      | .ok parsed =>
        if (lookupW wires parsed.wire).isSome then
          .error (.duplicateWire lineno parsed.wire)
        else parseGatesGo (lineno + 1) (wires ++ [(parsed.wire, parsed)]) rest

/-- `parse_gates(file_handle)`: the file is modelled as its list of
lines (file opening belongs to the caller). -/
def parse_gates (lines : List String) :
    Except ParseGatesErr (List (Nat × Gate)) :=
  parseGatesGo 0 [] lines

/-- OrderedDict assignment `variables[parsed.name] = parsed`: replace
in place when the key exists (keeping its position), else append. -/
def insertOD (l : List (String × Variable)) (k : String) (v : Variable) :
    List (String × Variable) :=
  if l.any (fun p => p.1 = k) then
    l.map (fun p => if p.1 = k then (k, v) else p)
  else l ++ [(k, v)]

/-- The loop of `parse_variables`; a `Variable.from_line` failure (the
`AttributeError`) propagates out of the loop as an exception. -/
def parseVariablesGo (lineno : Nat) (vars : List (String × Variable)) :
    List String → Except VarFailure (List (String × Variable))
  | [] => .ok vars
  | l :: rest =>
    let line := trimPy l.data
    if line.isEmpty then parseVariablesGo (lineno + 1) vars rest
    else
      match Variable.from_line (String.mk line) lineno with
      | .error e => .error e
      | .ok parsed => parseVariablesGo (lineno + 1) (insertOD vars parsed.name parsed) rest

/-- `parse_variables(file_handle)`. -/
def parse_variables (lines : List String) :
    Except VarFailure (List (String × Variable)) :=
  parseVariablesGo 0 [] lines

/-- `main(args)`, with each positional file argument modelled as the
list of lines of the file it names (opening and reading the files is
the process boundary).  Mirrors the source exactly:
* fewer than two arguments: print usage, `return 1`;
* otherwise: run `parse_gates` on the first file and **ignore its
  result** (the sentinel `2`/`3` is only printed, never returned), run
  `parse_variables` on the second (an `AttributeError` escapes `main`),
  print, and fall off the end (`return None`).
The result is `Except VarFailure (Option Nat)`: an escaped exception,
or the value passed to `sys.exit`. -/
def main (args : List (List String)) : Except VarFailure (Option Nat) :=
  match args with
  | a0 :: a1 :: _ =>
    let _wires := parse_gates a0
    match parse_variables a1 with
    | .error e => .error e
    | .ok _variables => .ok none
  | _ => .ok (some 1)

/-- The process exit code of `sys.exit(main(sys.argv[1:]))`:
`sys.exit(None)` exits 0, `sys.exit(n)` exits `n`, and an uncaught
exception makes the interpreter exit 1. -/
def processExitCode (r : Except VarFailure (Option Nat)) : Nat :=
  match r with
  | .error _ => 1
  | .ok none => 0
  | .ok (some n) => n

example : parse_gates ["3 input", "", "3 input"] =
    .error (.duplicateWire 2 3) := rfl

example : processExitCode (main [["bogus"], []]) = 0 := rfl

/-- The `(lineno, wire)` pairs of the successfully parsed non-blank
lines, numbered from `lineno` the way `enumerate` numbers them (blank
lines advance the count without contributing a pair).  Truncated at a
failing line; it is only consulted under the hypothesis that every
non-blank line parses. -/
def numberedWires (lineno : Nat) : List String → List (Nat × Nat)
  | [] => []
  | l :: rest =>
    let t := trimPy l.data
    if t.isEmpty then numberedWires (lineno + 1) rest
    else
      match Gate.from_line (String.mk t) lineno with
      | .ok g => (lineno, g.wire) :: numberedWires (lineno + 1) rest
      | .error _ => []

/-- The first pair of a `(lineno, wire)` sequence whose wire already
occurred (in `seen` or earlier in the sequence): the position of the
first repetition of a wire id. -/
def firstRepetition (seen : List Nat) : List (Nat × Nat) → Option (Nat × Nat)
  | [] => none
  | (i, w) :: rest =>
    if w ∈ seen then some (i, w) else firstRepetition (seen ++ [w]) rest

/-! ## Passthru resolver (spec-modelled)

The source's module docstring describes eliminating passthru gates by
remapping wires ("The mapping is done in reverse, from 511 to 510, so
any gate which references 511 as an input will be remapped to access
510 instead"), but no function in the source implements it; `main`
stops after parsing.  The definitions below are therefore modelled from
the specification, §4.5. -/

/-- Modelled from the spec: the chain resolution of §4.5 step 2a —
"repeatedly replace a wire by its mapped value until the value is
absent from the map".  Structured with fuel; the resolver passes one
more than the size of the map, enough for any acyclic chain. -/
def chaseCanonical (m : List (Nat × Nat)) : Nat → Nat → Nat
  | 0, w => w
  | f + 1, w =>
    match lookupW m w with
    | none => w
    | some v => chaseCanonical m f v

/-- Modelled from the spec: the resolver state — the `canonical`
remap table (§3 RemapTable, insertion-ordered) and the pruned gate
list built so far (§4.5 output). -/
structure RState where
  canonical : List (Nat × Nat)
  pruned : List Gate
deriving Repr, DecidableEq

/-- Modelled from the spec: §4.5 step 2b output transfer — "src's wire
becomes (additionally) a primary output of the circuit". -/
def markOutput (gs : List Gate) (w : Nat) : List Gate :=
  gs.map (fun g => if g.wire = w then { g with is_output := true } else g)

/-- Modelled from the spec: whether the retained gate defining `w` is
(by now) a primary output, consulted by the output-to-output rule of
§4.5 step 2b. -/
def isOutputWire (gs : List Gate) (w : Nat) : Bool :=
  gs.any (fun g => g.wire = w && g.is_output)

/-- Modelled from the spec: §4.5 step 2a — rewrite every element of
the gate's inputs by following `canonical` to a fixed point. -/
def rewriteInputs (st : RState) (g : Gate) : Gate :=
  { g with
    inputs := g.inputs.map
      (List.map (chaseCanonical st.canonical (st.canonical.length + 1))) }

/-- Modelled from the spec: one step of the single forward pass of
§4.5 — rewrite the gate's inputs through `canonical` to a fixed point;
a passthru gate is eliminated into a `canonical` entry (transferring
its output designation) unless it is an output fed by an output; every
other gate is retained with its rewritten inputs. -/
def resolveStep (st : RState) (g : Gate) : RState :=
  let g' := rewriteInputs st g
  if g'.is_passthru then
    match g'.inputs with
    | some [src] =>
      if g'.is_output && isOutputWire st.pruned src then
        { st with pruned := st.pruned ++ [g'] }
      else
        { canonical := st.canonical ++ [(g'.wire, src)],
          pruned := if g'.is_output then markOutput st.pruned src else st.pruned }
    | _ => { st with pruned := st.pruned ++ [g'] }
  else { st with pruned := st.pruned ++ [g'] }

/-- Modelled from the spec: the Passthru Resolver of §4.5 — a single
left-to-right pass over the assembled circuit in file order. -/
def resolveCircuit (gs : List Gate) : RState :=
  gs.foldl resolveStep ⟨[], []⟩

example :
    resolveCircuit
      [⟨true, false, 0, none, none, none, none⟩,
       ⟨false, false, 1, some 1, some [0, 1], some [0], none⟩,
       ⟨false, false, 2, some 1, some [0, 1], some [1], none⟩] =
    ⟨[(1, 0), (2, 0)], [⟨true, false, 0, none, none, none, none⟩]⟩ := rfl

/-! ## Structural lemmas about the matchers -/

/-- Every successful match of the gate branch carries an arity group
and a table group and no `is_input` group. -/
theorem gateBranchCore_shape (wire isOut s1 m)
    (h : gateBranchCore wire isOut s1 = some m) :
    m.is_input = none ∧ (∃ a, m.arity = some a) ∧ ∃ t, m.table = some t := by
  unfold gateBranchCore at h
  simp only [] at h
  repeat' split at h
  all_goals try exact Option.noConfusion h
  injection h with h2
  subst h2
  exact ⟨rfl, ⟨_, rfl⟩, ⟨_, rfl⟩⟩

theorem gateBranch_shape (wire s0 m) (h : gateBranch wire s0 = some m) :
    m.is_input = none ∧ (∃ a, m.arity = some a) ∧ ∃ t, m.table = some t := by
  unfold gateBranch at h
  split at h
  · exact gateBranchCore_shape _ _ _ _ h
  · exact gateBranchCore_shape _ _ _ _ h

/-- Every successful match of the input branch has the `is_input`
group and none of the gate-body groups. -/
theorem inputBranch_shape (wire s m) (h : inputBranch wire s = some m) :
    m.is_input = some ("input".data) ∧ m.arity = none ∧ m.table = none ∧
      m.inputs = none := by
  unfold inputBranch at h
  simp only [] at h
  repeat' split at h
  all_goals try exact Option.noConfusion h
  injection h with h2
  subst h2
  exact ⟨rfl, rfl, rfl, rfl⟩

/-- A `RE_GATE_LINE` match is one of the two alternation branches:
either the gate form (arity and table groups present, no `is_input`
group) or the input form (`is_input` group present, the gate-body
groups absent). -/
theorem matchGateLine_cases (s m) (h : matchGateLine s = some m) :
    (m.is_input = none ∧ (∃ a, m.arity = some a) ∧ ∃ t, m.table = some t) ∨
    (m.is_input = some ("input".data) ∧ m.arity = none ∧ m.table = none ∧
      m.inputs = none) := by
  unfold matchGateLine at h
  simp only [] at h
  split at h
  · exact Option.noConfusion h
  · split at h
    · split at h
      next m1 hg =>
        injection h with h2
        subst h2
        exact Or.inl (gateBranch_shape _ _ _ hg)
      next hg =>
        exact Or.inr (inputBranch_shape _ _ _ h)
    · exact Option.noConfusion h

/-- Every successful `RE_VAR_LINE` match has the type group `integer`:
the pattern spells the type out as the literal alternative
`(?P<type>integer)`. -/
theorem matchVarLine_type (s m) (h : matchVarLine s = some m) :
    m.type = "integer".data := by
  unfold matchVarLine at h
  simp only [] at h
  repeat' split at h
  all_goals try exact Option.noConfusion h
  injection h with h2
  subst h2
  rfl

/-- Inversion for a successful `Gate.from_line`: an input gate has no
arity, table or inputs; a non-input gate has an arity of at most 3 and
a table of exactly `1 <<< arity` bits (the check at the end of
`from_line`). -/
theorem from_line_ok_inversion (line : String) (lineno : Nat) (g : Gate)
    (h : Gate.from_line line lineno = .ok g) :
    (g.is_input = true ∧ g.arity = none ∧ g.table = none ∧ g.inputs = none) ∨
    (g.is_input = false ∧ ∃ a t, g.arity = some a ∧ g.table = some t ∧
      a ≤ 3 ∧ t.length = 1 <<< a) := by
  unfold Gate.from_line at h
  simp only [] at h
  split at h
  · exact Except.noConfusion h
  next m heq =>
    rcases matchGateLine_cases _ _ heq with ⟨hno, ⟨a0, ha0⟩, t0, ht0⟩ |
      ⟨hyes, hano, htno, hino⟩
    · -- gate branch: `is_input` is false
      have hb : (m.is_input == some ("input".data)) = false := by
        rw [hno]; rfl
      rw [ha0, ht0] at h
      simp only [Option.map_some', hb] at h
      split at h
      · exact Except.noConfusion h
      next hgt =>
        simp only [Bool.false_eq_true, if_false] at h
        split at h
        next hlen => exact Except.noConfusion h
        next hlen =>
          injection h with h2
          subst h2
          exact Or.inr ⟨rfl, charsToNat a0, _, rfl, rfl, by omega,
            by simpa using hlen⟩
    · -- input branch: `is_input` is true
      have hb : (m.is_input == some ("input".data)) = true := by
        rw [hyes]; rfl
      rw [hano, htno, hino] at h
      simp only [Option.map_none', hb, if_true] at h
      injection h with h2
      subst h2
      exact Or.inl ⟨rfl, rfl, rfl, rfl⟩

/-- Ordered-dictionary membership: `lookupW` succeeds exactly on the
keys. -/
theorem lookupW_isSome_iff {α : Type} (l : List (Nat × α)) (w : Nat) :
    (lookupW l w).isSome = true ↔ w ∈ l.map Prod.fst := by
  induction l with
  | nil => simp [lookupW]
  | cons p rest ih =>
    obtain ⟨k, v⟩ := p
    by_cases hk : k = w
    · simp [lookupW, hk]
    · simp [lookupW, hk, ih, Ne.symm hk]

/-- A gate whose `arity` field is `None` (a parsed input line) makes
all three classifiers false: Python `None == 0` / `None == 1` is just
`False`. -/
theorem classifiers_false_of_arity_none (g : Gate) (h : g.arity = none) :
    g.is_constant = false ∧ g.is_passthru = false ∧ g.is_not = false := by
  simp [Gate.is_constant, Gate.is_passthru, Gate.is_not, h]

/-! ## Claim theorems -/

/-- C1: the end-to-end scenario of the claim fails in the code.  The
two arity-0 affirmation lines — the very lines of the source's own
docstring Example 1 — do **not** parse: `RE_GATE_LINE` demands at least
one input wire (`inputs \[\s([0-9]+\s)+\]`), so `inputs [ ]` never
matches, `Gate.from_line` returns `None` (malformed line), and
`parse_gates` aborts with the sentinel 2 on the first line instead of
producing a 3-gate circuit.  Only the third line (the NOT gate) parses,
and it is indeed `is_not`. -/
theorem arity0_affirmation_lines_rejected :
    Gate.from_line "0 gate arity 0 table [ 0 ] inputs [ ]" 0 =
      .error (.malformedLine 0 "0 gate arity 0 table [ 0 ] inputs [ ]") ∧
    Gate.from_line "1 gate arity 0 table [ 1 ] inputs [ ]" 1 =
      .error (.malformedLine 1 "1 gate arity 0 table [ 1 ] inputs [ ]") ∧
    Gate.from_line "2 gate arity 1 table [ 1 0 ] inputs [ 1 ]" 2 =
      .ok ⟨false, false, 2, some 1, some [1, 0], some [1], none⟩ ∧
    Gate.is_not ⟨false, false, 2, some 1, some [1, 0], some [1], none⟩ = true ∧
    parse_gates
      ["0 gate arity 0 table [ 0 ] inputs [ ]",
       "1 gate arity 0 table [ 1 ] inputs [ ]",
       "2 gate arity 1 table [ 1 0 ] inputs [ 1 ]"] =
      .error (.lineError (.malformedLine 0 "0 gate arity 0 table [ 0 ] inputs [ ]")) :=
  ⟨rfl, rfl, rfl, rfl, rfl⟩

/-- C3: `main` drops the sentinel that `parse_gates` returns (`2` for a
malformed gate line, `3` for a duplicate wire) and falls through to
`return None`, so the process exits 0 on both failures; only the usage
error actually exits non-zero (1). -/
theorem main_ignores_parse_failures :
    processExitCode (main [["bogus"], []]) = 0 ∧
    parse_gates ["bogus"] = .error (.lineError (.malformedLine 0 "bogus")) ∧
    (ParseGatesErr.lineError (.malformedLine 0 "bogus")).sentinel = 2 ∧
    processExitCode (main [["3 input", "3 input"], []]) = 0 ∧
    parse_gates ["3 input", "3 input"] = .error (.duplicateWire 1 3) ∧
    (ParseGatesErr.duplicateWire 1 3).sentinel = 3 ∧
    processExitCode (main [["3 input"]]) = 1 ∧
    processExitCode (main []) = 1 :=
  ⟨rfl, rfl, rfl, rfl, rfl, rfl, rfl, rfl⟩

/-- C4 counterexample: the variable grammar does not accept an
arbitrary type token — `(?P<type>integer)` is a literal, so the same
line with type `boolean` instead of `integer` fails to parse. -/
theorem var_type_boolean_rejected :
    Variable.from_line "Alice input boolean \"x\" [ 1 ]" 0 =
      .error .attributeError ∧
    Variable.from_line "Alice input integer \"x\" [ 1 ]" 0 =
      .ok ⟨"Alice", "integer", "x", [1]⟩ :=
  ⟨rfl, rfl⟩

/-- C4 (amended): the only type token the variable grammar accepts is
the literal `integer`, and every successfully parsed Variable has
exactly that string as its type field (passed through unchanged). -/
theorem var_type_always_integer (line : String) (lineno : Nat)
    (v : Variable) (h : Variable.from_line line lineno = .ok v) :
    v.type = "integer" := by
  unfold Variable.from_line at h
  split at h
  · exact Except.noConfusion h
  next m heq =>
    injection h with h2
    subst h2
    show String.mk m.type = "integer"
    rw [matchVarLine_type _ _ heq]

/-- Witness for `var_type_always_integer` at a concrete line. -/
theorem var_type_always_integer_witness :
    Variable.from_line "Bob output integer \"y\" [ 2 3 ]" 5 =
      .ok ⟨"Bob", "integer", "y", [2, 3]⟩ ∧
    (Variable.mk "Bob" "integer" "y" [2, 3]).type = "integer" :=
  ⟨rfl, var_type_always_integer "Bob output integer \"y\" [ 2 3 ]" 5 _ rfl⟩

/-- C5 counterexample: the failure of the Variable Line Parser on a
non-matching line is the bare `AttributeError` crash; two different
non-matching lines at different line numbers fail with the *same*
value, so the failure cannot carry the line number or the raw line
text as `MalformedVariableLineError{lineno, line}` would. -/
theorem var_failures_indistinguishable :
    Variable.from_line "three guesses" 3 = .error .attributeError ∧
    Variable.from_line "no match here either" 99 = .error .attributeError ∧
    Variable.from_line "three guesses" 3 =
      Variable.from_line "no match here either" 99 :=
  ⟨rfl, rfl, rfl⟩

/-- C5 (amended): for every line that does not match `RE_VAR_LINE`,
`Variable.from_line` fails — but by crashing with `AttributeError`
(`m.group` on `None`), an error carrying neither the line number nor
the line text, not with a structured malformed-line error. -/
theorem var_nonmatching_crashes (line : String) (lineno : Nat)
    (h : matchVarLine line.data = none) :
    Variable.from_line line lineno = .error .attributeError := by
  unfold Variable.from_line
  rw [h]

/-- Witness for `var_nonmatching_crashes` at a concrete line. -/
theorem var_nonmatching_crashes_witness :
    matchVarLine "garbage".data = none ∧
    Variable.from_line "garbage" 7 = .error .attributeError :=
  ⟨rfl, var_nonmatching_crashes "garbage" 7 rfl⟩

/-- C6 counterexample: the parsed Variable record has no direction
field — `_VariableStruct` is `(party, type, name, wires)` and
`Variable.from_line` never reads the `(input|output)` group — so two
well-formed lines that differ only in that token parse to the *same*
record, which a record including the direction token could not do. -/
theorem var_direction_not_recorded :
    Variable.from_line "Alice input integer \"x\" [ 1 ]" 0 =
      .ok ⟨"Alice", "integer", "x", [1]⟩ ∧
    Variable.from_line "Alice output integer \"x\" [ 1 ]" 0 =
      .ok ⟨"Alice", "integer", "x", [1]⟩ ∧
    Variable.from_line "Alice input integer \"x\" [ 1 ]" 0 =
      Variable.from_line "Alice output integer \"x\" [ 1 ]" 0 :=
  ⟨rfl, rfl, rfl⟩

/-- C6 (amended): the grammar requires the input-or-output token (it
is group 2 of `RE_VAR_LINE`), but the Variable built from a match is
independent of it: the record keeps only party, type, name and
wires. -/
theorem variable_ignores_direction (m : VarMatch) (d : List Char) :
    Variable.ofMatch { m with dir := d } = Variable.ofMatch m := rfl

/-- C9: the classifiers are pairwise mutually exclusive — in
particular no gate is both passthru and NOT — and passthru/NOT hold
exactly on arity 1 with table `[0, 1]` (resp. `[1, 0]`); with the
absent Python fields embedded as `Option`, `g.arity == 1` reads
`g.arity = some 1`. -/
theorem classifiers_mutually_exclusive (g : Gate) :
    (¬(g.is_passthru = true ∧ g.is_not = true)) ∧
    (¬(g.is_constant = true ∧ g.is_passthru = true)) ∧
    (¬(g.is_constant = true ∧ g.is_not = true)) ∧
    (g.is_passthru = true ↔ g.arity = some 1 ∧ g.table = some [0, 1]) ∧
    (g.is_not = true ↔ g.arity = some 1 ∧ g.table = some [1, 0]) := by
  simp only [Gate.is_constant, Gate.is_passthru, Gate.is_not,
    Bool.and_eq_true, beq_iff_eq]
  refine ⟨?_, ?_, ?_, trivial, trivial⟩
  · rintro ⟨⟨-, h1⟩, -, h2⟩
    rw [h1] at h2
    simp at h2
  · rintro ⟨h0, h1, -⟩
    rw [h0] at h1
    simp at h1
  · rintro ⟨h0, h1, -⟩
    rw [h0] at h1
    simp at h1

/-- C10: a successfully parsed input gate (`"<wire> input"`) has all
three classifiers false, and (being total Lean functions over the
`Option`-valued fields) evaluating them is well-defined even though
arity, table and inputs are absent. -/
theorem input_gate_classifiers_false (line : String) (lineno : Nat)
    (g : Gate) (h : Gate.from_line line lineno = .ok g)
    (hin : g.is_input = true) :
    g.is_constant = false ∧ g.is_passthru = false ∧ g.is_not = false := by
  rcases from_line_ok_inversion _ _ _ h with ⟨-, ha, -, -⟩ | ⟨hfalse, -⟩
  · exact classifiers_false_of_arity_none g ha
  · rw [hfalse] at hin
    exact Bool.noConfusion hin

/-- C8: table size against arity.  For a line matched by the gate
branch of `RE_GATE_LINE` (so with arity and table groups) whose arity
is in range but whose table length differs from `2^arity`,
`Gate.from_line` fails exactly with the table-size diagnostic carrying
the expected and actual sizes; and every successfully parsed non-input
gate has a table of length exactly `2^arity`. -/
theorem table_size_checked (line : String) (lineno : Nat) :
    (∀ m a t, matchGateLine (trimPy line.data) = some m → m.arity = some a →
      m.table = some t → charsToNat a ≤ 3 →
      ((splitWs t).map charsToNat).length ≠ 2 ^ charsToNat a →
      Gate.from_line line lineno =
        .error (.tableSizeMismatch lineno (2 ^ charsToNat a)
          ((splitWs t).map charsToNat).length)) ∧
    (∀ g, Gate.from_line line lineno = .ok g → g.is_input = false →
      ∃ a t, g.arity = some a ∧ g.table = some t ∧ t.length = 2 ^ a) := by
  constructor
  · intro m a t hm ha ht hle hne
    have hno : m.is_input = none := by
      rcases matchGateLine_cases _ _ hm with ⟨h1, -⟩ | ⟨-, h2, -⟩
      · exact h1
      · rw [ha] at h2
        exact Option.noConfusion h2
    unfold Gate.from_line
    simp only []
    rw [hm]
    simp only [ha, ht, hno, Option.map_some']
    rw [if_neg (by omega)]
    simp only [show ((none : Option (List Char)) ==
      some ("input".data)) = false from rfl, Bool.false_eq_true, if_false]
    rw [if_pos (by rw [Nat.one_shiftLeft]; exact hne), Nat.one_shiftLeft]
  · intro g h hgi
    rcases from_line_ok_inversion _ _ _ h with ⟨htrue, -⟩ | ⟨-, a, t, ha, ht, -, hlen⟩
    · rw [htrue] at hgi
      exact Bool.noConfusion hgi
    · exact ⟨a, t, ha, ht, by rw [hlen, Nat.one_shiftLeft]⟩

/-- Witness for `table_size_checked`: arity 2 demands 4 table bits,
`table [ 0 1 ]` has 2. -/
theorem table_size_checked_witness :
    Gate.from_line "5 gate arity 2 table [ 0 1 ] inputs [ 1 ]" 0 =
      .error (.tableSizeMismatch 0 4 2) :=
  (table_size_checked "5 gate arity 2 table [ 0 1 ] inputs [ 1 ]" 0).1
    ⟨"5".data, none, some ("2".data), some ("0 1 ".data), some ("1 ".data),
      none, none⟩
    ("2".data) ("0 1 ".data) rfl rfl rfl (by decide) (by decide)

/-- The loop invariant behind C7: with the wires accumulated so far as
the seen set, the loop aborts with the duplicate-wire failure at the
first repetition. -/
theorem parseGatesGo_duplicate (lines : List String) :
    ∀ (lineno : Nat) (acc : List (Nat × Gate)) (j w : Nat),
    (∀ l ∈ lines, trimPy l.data ≠ [] →
      ∃ g, ∀ n, Gate.from_line (String.mk (trimPy l.data)) n = .ok g) →
    firstRepetition (acc.map Prod.fst) (numberedWires lineno lines) =
      some (j, w) →
    parseGatesGo lineno acc lines = .error (.duplicateWire j w) := by
  induction lines with
  | nil =>
    intro lineno acc j w hok hdup
    simp [numberedWires, firstRepetition] at hdup
  | cons l rest ih =>
    intro lineno acc j w hok hdup
    unfold numberedWires at hdup
    unfold parseGatesGo
    simp only [] at hdup ⊢
    by_cases hb : (trimPy l.data).isEmpty = true
    · rw [if_pos hb] at hdup ⊢
      exact ih (lineno + 1) acc j w
        (fun l' hl' => hok l' (List.mem_cons_of_mem _ hl')) hdup
    · obtain ⟨g, hg⟩ := hok l (List.mem_cons_self _ _)
        (by simpa [List.isEmpty_iff] using hb)
      rw [if_neg hb] at hdup ⊢
      simp only [hg lineno] at hdup ⊢
      rw [firstRepetition] at hdup
      by_cases hmem : g.wire ∈ acc.map Prod.fst
      · rw [if_pos hmem] at hdup
        injection hdup with hdup2
        injection hdup2 with hj hw
        subst hj; subst hw
        rw [if_pos ((lookupW_isSome_iff acc g.wire).2 hmem)]
      · rw [if_neg hmem] at hdup
        rw [if_neg (by
          intro hs
          exact hmem ((lookupW_isSome_iff acc g.wire).1 hs))]
        have hkeys : (acc ++ [(g.wire, g)]).map Prod.fst =
            acc.map Prod.fst ++ [g.wire] := by simp
        exact ih (lineno + 1) (acc ++ [(g.wire, g)]) j w
          (fun l' hl' => hok l' (List.mem_cons_of_mem _ hl'))
          (by rw [hkeys]; exact hdup)

/-- C7: if every non-blank line of the gate file parses and some wire
id repeats, `parse_gates` aborts with the duplicate-wire failure
(sentinel 3, printing line number and wire) at the first repetition —
whatever positions the two defining lines occupy — and produces no
circuit. -/
theorem duplicate_wire_aborts (lines : List String) (j w : Nat)
    (hok : ∀ l ∈ lines, trimPy l.data ≠ [] →
      ∃ g, ∀ n, Gate.from_line (String.mk (trimPy l.data)) n = .ok g)
    (hdup : firstRepetition [] (numberedWires 0 lines) = some (j, w)) :
    parse_gates lines = .error (.duplicateWire j w) :=
  parseGatesGo_duplicate lines 0 [] j w hok hdup

/-- Witness for `duplicate_wire_aborts`: wire 3 is defined on lines 0
and 2 (with a blank line between, which `enumerate` still counts). -/
theorem duplicate_wire_aborts_witness :
    parse_gates ["3 input", "", "3 input"] = .error (.duplicateWire 2 3) := by
  apply duplicate_wire_aborts ["3 input", "", "3 input"] 2 3
  · intro l hl hne
    simp only [List.mem_cons, List.not_mem_nil, or_false] at hl
    rcases hl with rfl | rfl | rfl
    · exact ⟨⟨true, false, 3, none, none, none, none⟩, fun n => rfl⟩
    · exact absurd rfl hne
    · exact ⟨⟨true, false, 3, none, none, none, none⟩, fun n => rfl⟩
  · rfl

/-- Witness for `input_gate_classifiers_false` at a concrete input
line. -/
theorem input_gate_classifiers_false_witness :
    Gate.from_line "7 input" 0 = .ok ⟨true, false, 7, none, none, none, none⟩ ∧
    (Gate.mk true false 7 none none none none).is_constant = false ∧
    (Gate.mk true false 7 none none none none).is_passthru = false ∧
    (Gate.mk true false 7 none none none none).is_not = false :=
  ⟨rfl, input_gate_classifiers_false "7 input" 0 _ rfl rfl⟩

/-! ## Lemmas about the resolver -/

theorem lookupW_append_some {α : Type} {m1 : List (Nat × α)}
    (m2 : List (Nat × α)) {w : Nat} {v : α} (h : lookupW m1 w = some v) :
    lookupW (m1 ++ m2) w = some v := by
  induction m1 with
  | nil => exact Option.noConfusion h
  | cons p rest ih =>
    obtain ⟨k, u⟩ := p
    by_cases hk : k = w
    · rw [lookupW, if_pos hk] at h
      rw [List.cons_append, lookupW, if_pos hk]
      exact h
    · rw [lookupW, if_neg hk] at h
      rw [List.cons_append, lookupW, if_neg hk]
      exact ih h

theorem lookupW_append_none {α : Type} {m1 : List (Nat × α)}
    (m2 : List (Nat × α)) {w : Nat} (h : lookupW m1 w = none) :
    lookupW (m1 ++ m2) w = lookupW m2 w := by
  induction m1 with
  | nil => rfl
  | cons p rest ih =>
    obtain ⟨k, u⟩ := p
    by_cases hk : k = w
    · rw [lookupW, if_pos hk] at h
      exact Option.noConfusion h
    · rw [lookupW, if_neg hk] at h
      rw [List.cons_append, lookupW, if_neg hk]
      exact ih h

theorem chaseCanonical_of_none {m : List (Nat × Nat)} {w : Nat}
    (h : lookupW m w = none) : ∀ f, chaseCanonical m f w = w
  | 0 => rfl
  | f + 1 => by rw [chaseCanonical, h]

theorem chaseCanonical_step {m : List (Nat × Nat)} {b c : Nat}
    (h1 : lookupW m b = some c) (h2 : lookupW m c = none) (f : Nat) :
    chaseCanonical m (f + 1) b = c := by
  rw [chaseCanonical, h1]
  exact chaseCanonical_of_none h2 f

/-- `markOutput` changes only the output flag, never the wires. -/
theorem markOutput_map_wire (gs : List Gate) (w : Nat) :
    (markOutput gs w).map Gate.wire = gs.map Gate.wire := by
  unfold markOutput
  rw [List.map_map]
  apply List.map_congr_left
  intro g _
  by_cases hw : g.wire = w <;> simp [hw]

/-- One resolver step either leaves `canonical` unchanged or, for a
passthru gate, appends the binding of that gate's wire. -/
theorem resolveStep_canonical_shape (st : RState) (g : Gate) :
    (resolveStep st g).canonical = st.canonical ∨
    (g.is_passthru = true ∧
      ∃ src, (resolveStep st g).canonical = st.canonical ++ [(g.wire, src)]) := by
  unfold resolveStep
  simp only []
  split
  next hp =>
    split
    next src heq =>
      split
      · exact Or.inl rfl
      · exact Or.inr ⟨hp, src, rfl⟩
    next => exact Or.inl rfl
  next => exact Or.inl rfl

/-- One resolver step either keeps the pruned wire list or appends the
gate's own wire. -/
theorem resolveStep_pruned_shape (st : RState) (g : Gate) :
    (resolveStep st g).pruned.map Gate.wire = st.pruned.map Gate.wire ∨
    (resolveStep st g).pruned.map Gate.wire =
      st.pruned.map Gate.wire ++ [g.wire] := by
  unfold resolveStep
  simp only []
  split
  · split
    next src heq =>
      split
      · right
        simp [rewriteInputs]
      · left
        split
        · exact markOutput_map_wire st.pruned src
        · rfl
    next => right; simp [rewriteInputs]
  · right; simp [rewriteInputs]

/-- A wire absent from `canonical` stays absent over a step whose gate
cannot introduce it (it is not a passthru gate defining that wire). -/
theorem resolveStep_lookup_none (st : RState) (g : Gate) (w : Nat)
    (h1 : lookupW st.canonical w = none)
    (h2 : g.wire = w → g.is_passthru = false) :
    lookupW (resolveStep st g).canonical w = none := by
  rcases resolveStep_canonical_shape st g with hs | ⟨hp, src, hs⟩
  · rw [hs]; exact h1
  · rw [hs, lookupW_append_none _ h1]
    have hne : g.wire ≠ w := by
      intro he
      rw [h2 he] at hp
      exact Bool.noConfusion hp
    simp [lookupW, hne]

/-- Entries of `canonical` persist over a step (the map only grows by
appending). -/
theorem resolveStep_lookup_some (st : RState) (g : Gate) {w v : Nat}
    (h : lookupW st.canonical w = some v) :
    lookupW (resolveStep st g).canonical w = some v := by
  rcases resolveStep_canonical_shape st g with hs | ⟨-, src, hs⟩ <;> rw [hs]
  · exact h
  · exact lookupW_append_some _ h

/-- The step of a non-output passthru gate: its wire is bound to the
chase of its single input and the pruned list is untouched. -/
theorem resolveStep_passthru (st : RState) (g : Gate) (src0 src : Nat)
    (hp : g.is_passthru = true) (hin : g.inputs = some [src0])
    (hout : g.is_output = false)
    (hsrc : chaseCanonical st.canonical (st.canonical.length + 1) src0 = src) :
    resolveStep st g = ⟨st.canonical ++ [(g.wire, src)], st.pruned⟩ := by
  unfold resolveStep
  simp only []
  have hg' : rewriteInputs st g =
      { g with inputs := some [src] } := by
    unfold rewriteInputs
    rw [hin]
    simp [hsrc]
  rw [hg']
  have hp' : ({ g with inputs := some [src] } : Gate).is_passthru = true := hp
  rw [if_pos hp']
  simp only []
  have hofalse : ({ g with inputs := some [src] } : Gate).is_output = false := hout
  rw [hofalse]
  simp

/-- Fold version of `resolveStep_lookup_none`. -/
theorem foldResolve_lookup_none (gs : List Gate) :
    ∀ (st : RState) (w : Nat), lookupW st.canonical w = none →
    (∀ g ∈ gs, g.wire = w → g.is_passthru = false) →
    lookupW ((gs.foldl resolveStep st)).canonical w = none := by
  induction gs with
  | nil => intro st w h1 _; exact h1
  | cons g rest ih =>
    intro st w h1 h2
    rw [List.foldl_cons]
    exact ih _ w
      (resolveStep_lookup_none st g w h1 (h2 g (List.mem_cons_self _ _)))
      (fun g' hg' => h2 g' (List.mem_cons_of_mem _ hg'))

/-- Fold version of `resolveStep_lookup_some`. -/
theorem foldResolve_lookup_some (gs : List Gate) :
    ∀ (st : RState) {w v : Nat}, lookupW st.canonical w = some v →
    lookupW ((gs.foldl resolveStep st)).canonical w = some v := by
  induction gs with
  | nil => intro st w v h; exact h
  | cons g rest ih =>
    intro st w v h
    rw [List.foldl_cons]
    exact ih _ (resolveStep_lookup_some st g h)

/-- A wire not defined by any gate of the suffix stays out of the
pruned list. -/
theorem foldResolve_pruned_not_mem (gs : List Gate) :
    ∀ (st : RState) (w : Nat), w ∉ st.pruned.map Gate.wire →
    w ∉ gs.map Gate.wire →
    w ∉ ((gs.foldl resolveStep st)).pruned.map Gate.wire := by
  induction gs with
  | nil => intro st w h1 _; exact h1
  | cons g rest ih =>
    intro st w h1 h2
    rw [List.foldl_cons]
    have hwg : w ≠ g.wire := by
      intro he
      exact h2 (by rw [List.map_cons, he]; exact List.mem_cons_self _ _)
    have hstep : w ∉ (resolveStep st g).pruned.map Gate.wire := by
      rcases resolveStep_pruned_shape st g with hs | hs <;> rw [hs]
      · exact h1
      · simp only [List.mem_append, List.mem_singleton]
        rintro (hmem | he)
        · exact h1 hmem
        · exact hwg he
    exact ih _ w hstep
      (fun hmem => h2 (by rw [List.map_cons]; exact List.mem_cons_of_mem _ hmem))

/-- C2 (spec-modelled: the resolver is documented but unimplemented in
the source).  In any assembled circuit (pairwise-distinct wires, file
order) containing a passthru chain `A → B → C` — `A` and `B` non-output
passthru gates, `B` defined before `A`, `C` any non-passthru gate — the
resolver maps both `A` and `B` to the canonical wire `C` and neither
`A`'s gate nor `B`'s gate survives into the pruned gate list. -/
theorem passthru_chain_resolved
    (l1 l2 l3 : List Gate) (gA gB gC : Gate)
    (hnodup : ((l1 ++ gB :: l2 ++ gA :: l3).map Gate.wire).Nodup)
    (hAp : gA.is_passthru = true) (hAin : gA.inputs = some [gB.wire])
    (hAout : gA.is_output = false)
    (hBp : gB.is_passthru = true) (hBin : gB.inputs = some [gC.wire])
    (hBout : gB.is_output = false)
    (hCmem : gC ∈ l1 ++ gB :: l2 ++ gA :: l3) (hCp : gC.is_passthru = false) :
    lookupW (resolveCircuit (l1 ++ gB :: l2 ++ gA :: l3)).canonical gA.wire =
      some gC.wire ∧
    lookupW (resolveCircuit (l1 ++ gB :: l2 ++ gA :: l3)).canonical gB.wire =
      some gC.wire ∧
    gA.wire ∉ (resolveCircuit (l1 ++ gB :: l2 ++ gA :: l3)).pruned.map Gate.wire ∧
    gB.wire ∉ (resolveCircuit (l1 ++ gB :: l2 ++ gA :: l3)).pruned.map Gate.wire := by
  classical
  -- distilled distinctness facts
  have hnodup2 : (l1.map Gate.wire ++ gB.wire ::
      (l2.map Gate.wire ++ gA.wire :: l3.map Gate.wire)).Nodup := by
    simpa using hnodup
  have hd1 := (List.nodup_append.1 hnodup2).2.2
  have hn2 := (List.nodup_append.1 hnodup2).2.1
  have hB_l1 : gB.wire ∉ l1.map Gate.wire :=
    fun hm => hd1 hm (List.mem_cons_self _ _)
  have hA_l1 : gA.wire ∉ l1.map Gate.wire :=
    fun hm => hd1 hm (by
      exact List.mem_cons_of_mem _ (by
        exact List.mem_append_right _ (List.mem_cons_self _ _)))
  have hB_rest : gB.wire ∉ l2.map Gate.wire ++ gA.wire :: l3.map Gate.wire :=
    (List.nodup_cons.1 hn2).1
  have hB_l2 : gB.wire ∉ l2.map Gate.wire :=
    fun hm => hB_rest (List.mem_append_left _ hm)
  have hB_A : gB.wire ≠ gA.wire :=
    fun he => hB_rest (List.mem_append_right _ (by rw [he]; exact List.mem_cons_self _ _))
  have hB_l3 : gB.wire ∉ l3.map Gate.wire :=
    fun hm => hB_rest (List.mem_append_right _ (List.mem_cons_of_mem _ hm))
  have hn3 := (List.nodup_cons.1 hn2).2
  have hd2 := (List.nodup_append.1 hn3).2.2
  have hA_l2 : gA.wire ∉ l2.map Gate.wire :=
    fun hm => hd2 hm (List.mem_cons_self _ _)
  have hA_l3 : gA.wire ∉ l3.map Gate.wire :=
    (List.nodup_cons.1 (List.nodup_append.1 hn3).2.1).1
  -- wire-injectivity on the circuit, and the wire of C is never bound
  have hinj := List.inj_on_of_nodup_map hnodup
  have hCnop : ∀ g ∈ l1 ++ gB :: l2 ++ gA :: l3, g.wire = gC.wire →
      g.is_passthru = false := by
    intro g hg he
    rw [hinj hg hCmem he]
    exact hCp
  have hBneC : gB.wire ≠ gC.wire := by
    intro he
    have hBmem : gB ∈ l1 ++ gB :: l2 ++ gA :: l3 := by simp
    rw [hinj hBmem hCmem he] at hBp
    rw [hCp] at hBp
    exact Bool.noConfusion hBp
  -- the five stages of the fold
  have hres : resolveCircuit (l1 ++ gB :: l2 ++ gA :: l3) =
      List.foldl resolveStep
        (resolveStep
          (List.foldl resolveStep
            (resolveStep (List.foldl resolveStep ⟨[], []⟩ l1) gB) l2) gA) l3 := by
    simp [resolveCircuit, List.foldl_append]
  set st1 := List.foldl resolveStep (⟨[], []⟩ : RState) l1 with hst1
  set st2 := resolveStep st1 gB with hst2
  set st3 := List.foldl resolveStep st2 l2 with hst3
  set st4 := resolveStep st3 gA with hst4
  set st5 := List.foldl resolveStep st4 l3 with hst5
  -- stage 1: nothing about A, B, C is bound yet
  have key1C : lookupW st1.canonical gC.wire = none :=
    foldResolve_lookup_none l1 _ _ rfl
      (fun g hg he => hCnop g (by simp [hg]) he)
  have key1B : lookupW st1.canonical gB.wire = none :=
    foldResolve_lookup_none l1 _ _ rfl
      (fun g hg he =>
        absurd (he ▸ List.mem_map_of_mem Gate.wire hg) hB_l1)
  have key1A : lookupW st1.canonical gA.wire = none :=
    foldResolve_lookup_none l1 _ _ rfl
      (fun g hg he =>
        absurd (he ▸ List.mem_map_of_mem Gate.wire hg) hA_l1)
  -- stage 2: B is eliminated into canonical[B] = C
  have hB' : st2 = ⟨st1.canonical ++ [(gB.wire, gC.wire)], st1.pruned⟩ :=
    resolveStep_passthru st1 gB gC.wire gC.wire hBp hBin hBout
      (chaseCanonical_of_none key1C _)
  have key2B : lookupW st2.canonical gB.wire = some gC.wire := by
    rw [hB']
    show lookupW (st1.canonical ++ [(gB.wire, gC.wire)]) gB.wire = some gC.wire
    rw [lookupW_append_none _ key1B]
    simp [lookupW]
  have key2C : lookupW st2.canonical gC.wire = none := by
    rw [hB']
    show lookupW (st1.canonical ++ [(gB.wire, gC.wire)]) gC.wire = none
    rw [lookupW_append_none _ key1C]
    simp [lookupW, hBneC]
  have key2A : lookupW st2.canonical gA.wire = none := by
    rw [hB']
    show lookupW (st1.canonical ++ [(gB.wire, gC.wire)]) gA.wire = none
    rw [lookupW_append_none _ key1A]
    simp [lookupW, hB_A]
  -- stage 3
  have key3B : lookupW st3.canonical gB.wire = some gC.wire :=
    foldResolve_lookup_some l2 st2 key2B
  have key3C : lookupW st3.canonical gC.wire = none :=
    foldResolve_lookup_none l2 st2 _ key2C
      (fun g hg he => hCnop g (by simp [hg]) he)
  have key3A : lookupW st3.canonical gA.wire = none :=
    foldResolve_lookup_none l2 st2 _ key2A
      (fun g hg he =>
        absurd (he ▸ List.mem_map_of_mem Gate.wire hg) hA_l2)
  -- stage 4: A is eliminated into canonical[A] = C via the chain
  have hA' : st4 = ⟨st3.canonical ++ [(gA.wire, gC.wire)], st3.pruned⟩ :=
    resolveStep_passthru st3 gA gB.wire gC.wire hAp hAin hAout
      (chaseCanonical_step key3B key3C _)
  have key4A : lookupW st4.canonical gA.wire = some gC.wire := by
    rw [hA']
    show lookupW (st3.canonical ++ [(gA.wire, gC.wire)]) gA.wire = some gC.wire
    rw [lookupW_append_none _ key3A]
    simp [lookupW]
  have key4B : lookupW st4.canonical gB.wire = some gC.wire := by
    rw [hA']
    show lookupW (st3.canonical ++ [(gA.wire, gC.wire)]) gB.wire = some gC.wire
    exact lookupW_append_some _ key3B
  -- stage 5
  have key5A : lookupW st5.canonical gA.wire = some gC.wire :=
    foldResolve_lookup_some l3 st4 key4A
  have key5B : lookupW st5.canonical gB.wire = some gC.wire :=
    foldResolve_lookup_some l3 st4 key4B
  -- pruned list: A and B never enter it
  have pr1A : gA.wire ∉ st1.pruned.map Gate.wire :=
    foldResolve_pruned_not_mem l1 _ _ (by simp) hA_l1
  have pr1B : gB.wire ∉ st1.pruned.map Gate.wire :=
    foldResolve_pruned_not_mem l1 _ _ (by simp) hB_l1
  have pr2A : gA.wire ∉ st2.pruned.map Gate.wire := by rw [hB']; exact pr1A
  have pr2B : gB.wire ∉ st2.pruned.map Gate.wire := by rw [hB']; exact pr1B
  have pr3A : gA.wire ∉ st3.pruned.map Gate.wire :=
    foldResolve_pruned_not_mem l2 st2 _ pr2A hA_l2
  have pr3B : gB.wire ∉ st3.pruned.map Gate.wire :=
    foldResolve_pruned_not_mem l2 st2 _ pr2B hB_l2
  have pr4A : gA.wire ∉ st4.pruned.map Gate.wire := by rw [hA']; exact pr3A
  have pr4B : gB.wire ∉ st4.pruned.map Gate.wire := by rw [hA']; exact pr3B
  have pr5A : gA.wire ∉ st5.pruned.map Gate.wire :=
    foldResolve_pruned_not_mem l3 st4 _ pr4A hA_l3
  have pr5B : gB.wire ∉ st5.pruned.map Gate.wire :=
    foldResolve_pruned_not_mem l3 st4 _ pr4B hB_l3
  rw [hres]
  exact ⟨key5A, key5B, pr5A, pr5B⟩

/-- Witness for `passthru_chain_resolved` on the concrete chain
`2 → 1 → 0` (wire 0 a primary input). -/
theorem passthru_chain_resolved_witness :
    lookupW (resolveCircuit
      [⟨true, false, 0, none, none, none, none⟩,
       ⟨false, false, 1, some 1, some [0, 1], some [0], none⟩,
       ⟨false, false, 2, some 1, some [0, 1], some [1], none⟩]).canonical 2 =
      some 0 ∧
    lookupW (resolveCircuit
      [⟨true, false, 0, none, none, none, none⟩,
       ⟨false, false, 1, some 1, some [0, 1], some [0], none⟩,
       ⟨false, false, 2, some 1, some [0, 1], some [1], none⟩]).canonical 1 =
      some 0 ∧
    (2 : Nat) ∉ (resolveCircuit
      [⟨true, false, 0, none, none, none, none⟩,
       ⟨false, false, 1, some 1, some [0, 1], some [0], none⟩,
       ⟨false, false, 2, some 1, some [0, 1], some [1], none⟩]).pruned.map Gate.wire ∧
    (1 : Nat) ∉ (resolveCircuit
      [⟨true, false, 0, none, none, none, none⟩,
       ⟨false, false, 1, some 1, some [0, 1], some [0], none⟩,
       ⟨false, false, 2, some 1, some [0, 1], some [1], none⟩]).pruned.map Gate.wire :=
  passthru_chain_resolved
    [⟨true, false, 0, none, none, none, none⟩] [] []
    ⟨false, false, 2, some 1, some [0, 1], some [1], none⟩
    ⟨false, false, 1, some 1, some [0, 1], some [0], none⟩
    ⟨true, false, 0, none, none, none, none⟩
    (by decide) rfl rfl rfl rfl rfl rfl (by decide) rfl

end SHDL
